/-
Verification of the weather-by-cep telemetry services (service-a, the Edge
Service, and service-b, the Orchestration Service) against their
specification.

The two Go programs are shallowly embedded as pure Lean functions.  Each
HTTP handler becomes a function of an explicit input record describing the
inbound request (method, parsed JSON body) together with the outcomes of the
outbound collaborator calls (modelled as values of `HTTPOutcome`, since the
network itself is outside the program).  JSON documents are modelled by the
inductive type `JVal`; the behaviour of Go's `encoding/json` unmarshalling
into the three concrete record shapes used by the services
(`CEPRequest`, `ViaCEPResponse`, `WeatherAPIResponse`) is embedded field by
field.  Go `float64` temperatures are modelled as rationals, with the source
literals `1.8` and the integer offsets kept exactly.
-/
import Mathlib

namespace WeatherCep

/-! ## JSON documents

A JSON value, as produced by a JSON parser.  `Option JVal` models the result
of reading a request/response body: `none` is a body that is not well-formed
JSON at all. -/

inductive JVal : Type where
  | jstr (s : String)
  | jbool (b : Bool)
  | jnum (q : ℚ)
  | jnull
  | jarr (elems : List JVal)
  | jobj (fields : List (String × JVal))

/-! ## Record shapes (service-a/main.go 31-44, service-b/main.go 31-62) -/

/-- Go: `type CEPRequest struct \x7b CEP string \x7bjson:"cep"\x7d \x7d` -/
structure CEPRequest where
  cep : String
deriving Repr, DecidableEq

/-- Go: `type ViaCEPResponse struct` — the ViaCEP API response shape of
service-b/main.go 47-55.  Every field, including `Erro`, is declared as a Go
`string`. -/
structure ViaCEPResponse where
  cep : String := ""
  logradouro : String := ""
  complemento : String := ""
  bairro : String := ""
  localidade : String := ""
  uf : String := ""
  erro : String := ""
deriving Repr, DecidableEq

/-- Go: `type WeatherAPIResponse struct \x7b Current struct \x7b TempC float64 \x7d \x7d`
(service-b/main.go 58-62), flattened to its single numeric payload. -/
structure WeatherAPIResponse where
  currentTempC : ℚ := 0
deriving Repr, DecidableEq

/-! ## Go `encoding/json` unmarshalling, embedded for these shapes.

Decoding a JSON value into a Go `string` field succeeds on a JSON string,
leaves the field untouched on JSON `null`, and fails with an
`UnmarshalTypeError` on any other JSON kind (in particular on a JSON
boolean).  Decoding into a `float64` field accepts a JSON number.  A JSON
`null` at the top level leaves the whole struct at its zero value without
error; any non-object, non-null top level is a type error.  Object keys are
matched to field tags case-insensitively, later duplicates overwriting
earlier ones; unknown keys are ignored. -/

/-- ASCII lower-casing of one character (Go matches object keys to field
tags case-insensitively). -/
def lowerChar (c : Char) : Char :=
  if 65 ≤ c.toNat ∧ c.toNat ≤ 90 then Char.ofNat (c.toNat + 32) else c

/-- ASCII lower-casing of an object key. -/
def lowerKey (s : String) : String :=
  ⟨s.data.map lowerChar⟩

/-- Decode a JSON value into a Go `string` field whose current value is
`cur` (JSON null leaves the field as it was). -/
def decodeStr (cur : String) : JVal → Except Unit String
  | JVal.jstr s => Except.ok s
  | JVal.jnull => Except.ok cur
  | _ => Except.error ()

/-- Decode a JSON value into a Go `float64` field whose current value is
`cur`. -/
def decodeNum (cur : ℚ) : JVal → Except Unit ℚ
  | JVal.jnum q => Except.ok q
  | JVal.jnull => Except.ok cur
  | _ => Except.error ()

/-- One step of unmarshalling a JSON object member into a `CEPRequest`:
a key folding to the tag `cep` updates the field, any other key is
ignored. -/
def cepReqStep (acc : Except Unit CEPRequest) (kv : String × JVal) :
    Except Unit CEPRequest :=
  match acc with
  | Except.error e => Except.error e
  | Except.ok r =>
      if lowerKey kv.fst = "cep" then
        (decodeStr r.cep kv.snd).map fun s => { r with cep := s }
      else Except.ok r

/-- Behaviour of `json.Unmarshal` / `Decoder.Decode` into a `CEPRequest`. -/
def unmarshalCEPRequest : JVal → Except Unit CEPRequest
  | JVal.jnull => Except.ok {cep := ""}
  | JVal.jobj fields => fields.foldl cepReqStep (Except.ok {cep := ""})
  | _ => Except.error ()

/-- One step of unmarshalling a JSON object member into a
`ViaCEPResponse`, dispatching on the (case-folded) key. -/
def viaCEPStep (acc : Except Unit ViaCEPResponse) (kv : String × JVal) :
    Except Unit ViaCEPResponse :=
  match acc with
  | Except.error e => Except.error e
  | Except.ok r =>
      match lowerKey kv.fst with
      | "cep" => (decodeStr r.cep kv.snd).map fun s => { r with cep := s }
      | "logradouro" =>
          (decodeStr r.logradouro kv.snd).map fun s => { r with logradouro := s }
      | "complemento" =>
          (decodeStr r.complemento kv.snd).map fun s => { r with complemento := s }
      | "bairro" => (decodeStr r.bairro kv.snd).map fun s => { r with bairro := s }
      | "localidade" =>
          (decodeStr r.localidade kv.snd).map fun s => { r with localidade := s }
      | "uf" => (decodeStr r.uf kv.snd).map fun s => { r with uf := s }
      | "erro" => (decodeStr r.erro kv.snd).map fun s => { r with erro := s }
      | _ => Except.ok r

/-- Behaviour of `json.Unmarshal` into a `ViaCEPResponse` (service-b/main.go 144). -/
def unmarshalViaCEP : JVal → Except Unit ViaCEPResponse
  | JVal.jnull => Except.ok {}
  | JVal.jobj fields => fields.foldl viaCEPStep (Except.ok {})
  | _ => Except.error ()

/-- Unmarshal the inner `current` object of a `WeatherAPIResponse`:
only the `temp_c` member is decoded, into a `float64`. -/
def weatherCurrentStep (acc : Except Unit ℚ) (kv : String × JVal) :
    Except Unit ℚ :=
  match acc with
  | Except.error e => Except.error e
  | Except.ok t =>
      if lowerKey kv.fst = "temp_c" then decodeNum t kv.snd
      else Except.ok t

/-- One step of unmarshalling a JSON object member into a
`WeatherAPIResponse`: the `current` member must itself be an object (or
null). -/
def weatherStep (acc : Except Unit WeatherAPIResponse) (kv : String × JVal) :
    Except Unit WeatherAPIResponse :=
  match acc with
  | Except.error e => Except.error e
  | Except.ok r =>
      if lowerKey kv.fst = "current" then
        match kv.snd with
        | JVal.jobj fields =>
            (fields.foldl weatherCurrentStep (Except.ok r.currentTempC)).map
              fun t => { r with currentTempC := t }
        | JVal.jnull => Except.ok r
        | _ => Except.error ()
      else Except.ok r

/-- Behaviour of `json.Unmarshal` into a `WeatherAPIResponse` (service-b/main.go 209). -/
def unmarshalWeather : JVal → Except Unit WeatherAPIResponse
  | JVal.jnull => Except.ok {}
  | JVal.jobj fields => fields.foldl weatherStep (Except.ok {})
  | _ => Except.error ()

/-- Reading and decoding a request body
(`json.NewDecoder(r.Body).Decode(&req)`): a body that is not well-formed
JSON (`none`) is a decode error, otherwise the parsed value is unmarshalled
into a `CEPRequest`. -/
def decodeBody : Option JVal → Except Unit CEPRequest
  | none => Except.error ()
  | some v => unmarshalCEPRequest v

/-! ## The postal-code validator (service-a/main.go 88-91 and
service-b/main.go 106-109, identical in both services) -/

/-- The validator `validateCEP` embeds `regexp.MatchString` with the pattern
`^\d{8}$`: the whole string must consist of exactly eight ASCII-digit
characters. -/
def validateCEP (cep : String) : Bool :=
  cep.length = 8 && cep.data.all Char.isDigit

/-! ## Temperature conversions (service-b/main.go 219-225) -/

/-- Go: `func celsiusToFahrenheit(c float64) float64 \x7b return c*1.8 + 32 \x7d` -/
def celsiusToFahrenheit (c : ℚ) : ℚ :=
  c * 1.8 + 32

/-- Go: `func celsiusToKelvin(c float64) float64 \x7b return c + 273 \x7d` -/
def celsiusToKelvin (c : ℚ) : ℚ :=
  c + 273

/-! ## Outbound HTTP calls

The network is external, so the outcome of an outbound call is an input to
the embedding: either a transport-level failure (connection error, timeout,
read failure — everything `client.Do` / `io.ReadAll` can return an error
for), or a response with an HTTP status code and a body. -/

inductive HTTPOutcome (β : Type) : Type where
  | transportErr
  | response (status : Nat) (body : β)

/-- The function `lookupCEP` (service-b/main.go 111-160), as a function of the outcome
of the GET to ViaCEP.  The body of a received response is given already
parsed-or-not as `Option JVal` (`none` = not well-formed JSON).
`Except.error ()` is `lookupCEP` returning a non-nil Go `error`;
`Except.ok none` is the `(nil, nil)` not-found return of line 151;
`Except.ok (some r)` is a found city.  Note the source inspects the
response body regardless of the HTTP status code. -/
def lookupCEP (outcome : HTTPOutcome (Option JVal)) :
    Except Unit (Option ViaCEPResponse) :=
  match outcome with
  | HTTPOutcome.transportErr => Except.error ()
  | HTTPOutcome.response _ none => Except.error ()
  | HTTPOutcome.response _ (some body) =>
      match unmarshalViaCEP body with
      | Except.error e => Except.error e
      | Except.ok viaCEP =>
          if viaCEP.erro = "true" ∨ viaCEP.localidade = "" then
            Except.ok none
          else
            Except.ok (some viaCEP)

/-- The function `getWeather` (service-b/main.go 162-217), as a function of the
`WEATHER_API_KEY` environment value (`os.Getenv` yields `""` when the
variable is absent) and the outcome of the GET to the weather provider.
`Except.error ()` is a non-nil Go `error` return; `Except.ok t` returns the
provider's current temperature in Celsius. -/
def getWeather (apiKey : String) (outcome : HTTPOutcome (Option JVal)) :
    Except Unit ℚ :=
  if apiKey = "" then Except.error ()
  else
    match outcome with
    | HTTPOutcome.transportErr => Except.error ()
    | HTTPOutcome.response status body =>
        if status ≠ 200 then Except.error ()
        else
          match body with
          | none => Except.error ()
          | some v =>
              match unmarshalWeather v with
              | Except.error e => Except.error e
              | Except.ok w => Except.ok w.currentTempC

/-! ## HTTP responses written by the handlers -/

/-- What a handler writes back: no body at all (the 405 branch), an
`ErrorResponse\x7bMessage: msg\x7d` encoded as JSON, a `WeatherResponse`
encoded as JSON, or — in the Edge Service only — a verbatim relay of the
bytes received from the Orchestration Service. -/
inductive RespBody : Type where
  | empty
  | errMsg (msg : String)
  | weather (city : String) (tempC tempF tempK : ℚ)
  | rawBytes (bytes : String)
deriving Repr, DecidableEq

/-- An HTTP response: status code and body. -/
structure HResp where
  status : Nat
  body : RespBody
deriving Repr, DecidableEq

/-! ## The Orchestration Service handler (service-b/main.go 227-307) -/

/-- Everything `handleWeather` consumes: the request method and body, and
the outcomes of the two outbound collaborator calls (used only if the
control flow reaches them). -/
structure OrchInput where
  method : String
  reqBody : Option JVal
  lookupOutcome : HTTPOutcome (Option JVal)
  apiKey : String
  weatherOutcome : HTTPOutcome (Option JVal)

/-- The handler `handleWeather`, instrumented: the second component records the city
argument of the call to `getWeather` when that call is made, and is `none`
when control never reaches it. -/
def handleWeatherT (inp : OrchInput) : HResp × Option String :=
  if inp.method ≠ "POST" then (⟨405, RespBody.empty⟩, none)
  else
    match decodeBody inp.reqBody with
    | Except.error _ => (⟨422, RespBody.errMsg "invalid zipcode"⟩, none)
    | Except.ok req =>
        if !validateCEP req.cep then
          (⟨422, RespBody.errMsg "invalid zipcode"⟩, none)
        else
          match lookupCEP inp.lookupOutcome with
          | Except.error _ => (⟨500, RespBody.errMsg "internal error"⟩, none)
          | Except.ok none =>
              (⟨404, RespBody.errMsg "can not find zipcode"⟩, none)
          | Except.ok (some viaCEP) =>
              match getWeather inp.apiKey inp.weatherOutcome with
              | Except.error _ =>
                  (⟨500, RespBody.errMsg "failed to get weather"⟩,
                   some viaCEP.localidade)
              | Except.ok tempC =>
                  (⟨200, RespBody.weather viaCEP.localidade tempC
                      (celsiusToFahrenheit tempC) (celsiusToKelvin tempC)⟩,
                   some viaCEP.localidade)

/-- The response `handleWeather` writes. -/
def handleWeather (inp : OrchInput) : HResp :=
  (handleWeatherT inp).fst

/-! ## `json.Marshal` of a `CEPRequest` (service-a/main.go 137)

Go's `encoding/json` string encoder escapes the quote, the backslash,
control characters below 0x20, the HTML-sensitive characters
`<` `>` `&` (Marshal uses HTML escaping), and U+2028/U+2029; every other
character is emitted as itself. -/

/-- Lower-case hex digit of `n % 16`. -/
def hexDigit (n : Nat) : Char :=
  if n % 16 < 10 then Char.ofNat (48 + n % 16)
  else Char.ofNat (87 + n % 16)

/-- The `\uXXXX` escape for a code point below 0x10000. -/
def uEscape (n : Nat) : List Char :=
  ['\\', 'u', hexDigit (n / 4096), hexDigit (n / 256), hexDigit (n / 16),
   hexDigit n]

/-- Encoding of one character inside a JSON string literal, following
`encoding/json`'s `encodeState.string` with HTML escaping on. -/
def escapeChar (c : Char) : List Char :=
  if c = '"' then ['\\', '"']
  else if c = '\\' then ['\\', '\\']
  else if c = '\n' then ['\\', 'n']
  else if c = '\r' then ['\\', 'r']
  else if c = '\t' then ['\\', 't']
  else if c.toNat < 32 ∨ c = '<' ∨ c = '>' ∨ c = '&' then uEscape c.toNat
  else if c.toNat = 0x2028 ∨ c.toNat = 0x2029 then uEscape c.toNat
  else [c]

/-- Encoding of the characters of a JSON string literal's body. -/
def escapeList : List Char → List Char
  | [] => []
  | c :: cs => escapeChar c ++ escapeList cs

/-- A JSON string literal holding `s`. -/
def quoteJSON (s : String) : String :=
  ⟨'"' :: escapeList s.data ++ ['"']⟩

/-- Result of `json.Marshal(req)` for `req : CEPRequest`: the single-field object the
Edge Service sends to the Orchestration Service (service-a/main.go 137). -/
def marshalCEPRequest (req : CEPRequest) : String :=
  "\x7b\"cep\":" ++ quoteJSON req.cep ++ "\x7d"

/-! ## The Edge Service handler (service-a/main.go 93-174) -/

/-- Everything `handleCEP` consumes: the request method and body, whether
`http.NewRequestWithContext` succeeded (it fails only on a malformed URL
from the environment), and the outcome of the POST to the Orchestration
Service.  The body of the Orchestration response is raw bytes — the Edge
Service never parses it. -/
structure EdgeInput where
  method : String
  reqBody : Option JVal
  buildOk : Bool
  forwardOutcome : HTTPOutcome String

/-- The handler `handleCEP`, instrumented: the second component records the body
attached to the outbound request to the Orchestration Service when that
request is constructed, and is `none` when control never reaches the
forwarding step. -/
def handleCEPT (inp : EdgeInput) : HResp × Option String :=
  if inp.method ≠ "POST" then (⟨405, RespBody.empty⟩, none)
  else
    match decodeBody inp.reqBody with
    | Except.error _ => (⟨422, RespBody.errMsg "invalid zipcode"⟩, none)
    | Except.ok req =>
        if !validateCEP req.cep then
          (⟨422, RespBody.errMsg "invalid zipcode"⟩, none)
        else if !inp.buildOk then
          (⟨500, RespBody.errMsg "internal error"⟩, none)
        else
          match inp.forwardOutcome with
          | HTTPOutcome.transportErr =>
              (⟨503, RespBody.errMsg "service unavailable"⟩,
               some (marshalCEPRequest req))
          | HTTPOutcome.response status bytes =>
              (⟨status, RespBody.rawBytes bytes⟩, some (marshalCEPRequest req))

/-- The response `handleCEP` writes. -/
def handleCEP (inp : EdgeInput) : HResp :=
  (handleCEPT inp).fst

/-! ## Helper lemmas -/

/-- Core's `Char.isDigit` is the ASCII code-point range 48–57. -/
theorem isDigit_iff_toNat (c : Char) :
    c.isDigit = true ↔ 48 ≤ c.toNat ∧ c.toNat ≤ 57 := by
  simp only [Char.isDigit, ge_iff_le, Bool.and_eq_true, decide_eq_true_eq,
    UInt32.le_def, BitVec.le_def]
  exact Iff.rfl

/-- A digit character is emitted verbatim by the JSON string encoder. -/
theorem escapeChar_digit (c : Char) (h : c.isDigit = true) :
    escapeChar c = [c] := by
  obtain ⟨hlo, hhi⟩ := (isDigit_iff_toNat c).mp h
  have hq : ¬ c = '"' := by rintro rfl; simp at hlo
  have hbs : ¬ c = '\\' := by rintro rfl; simp at hhi
  have hn : ¬ c = '\n' := by rintro rfl; simp at hlo
  have hr : ¬ c = '\r' := by rintro rfl; simp at hlo
  have ht : ¬ c = '\t' := by rintro rfl; simp at hlo
  have hc1 : ¬ (c.toNat < 32 ∨ c = '<' ∨ c = '>' ∨ c = '&') := by
    rintro (h1 | rfl | rfl | rfl)
    · omega
    · exact absurd hhi (by decide)
    · exact absurd hhi (by decide)
    · exact absurd hlo (by decide)
  have hc2 : ¬ (c.toNat = 0x2028 ∨ c.toNat = 0x2029) := by
    rintro (h1 | h1) <;> omega
  simp only [escapeChar, hq, hbs, hn, hr, ht, hc1, hc2, if_false, if_neg]

/-- A list of digit characters is emitted verbatim by the JSON string
encoder. -/
theorem escapeList_digits (l : List Char) (h : ∀ c ∈ l, c.isDigit = true) :
    escapeList l = l := by
  induction l with
  | nil => rfl
  | cons c cs ih =>
      have hc := h c (List.mem_cons_self c cs)
      have hcs := fun d hd => h d (List.mem_cons_of_mem c hd)
      simp [escapeList, escapeChar_digit c hc, ih hcs]

/-- Quoting a digits-only string just wraps it in quotes. -/
theorem quoteJSON_digits (s : String) (h : ∀ c ∈ s.data, c.isDigit = true) :
    quoteJSON s = "\"" ++ s ++ "\"" := by
  unfold quoteJSON
  rw [escapeList_digits s.data h]
  rfl

/-- A validated postal code consists of digit characters only. -/
theorem validateCEP_digits (cep : String) (h : validateCEP cep = true) :
    ∀ c ∈ cep.data, c.isDigit = true := by
  have := (Bool.and_eq_true _ _).mp h
  exact fun c hc => List.all_eq_true.mp this.2 c hc

/-! ## The claims -/

/-- C1: the Orchestration Service's conversion functions satisfy
`celsiusToFahrenheit c = c * 1.8 + 32` and `celsiusToKelvin c = c + 273`
(the integer offset 273, not 273.15) for every Celsius temperature `c`;
in particular `F 0 = 32`, `F 100 = 212`, `K 0 = 273`.  Both are pure Lean
functions of their argument. -/
theorem celsius_conversions_spec (c : ℚ) :
    celsiusToFahrenheit c = c * 1.8 + 32 ∧
    celsiusToKelvin c = c + 273 ∧
    celsiusToKelvin c ≠ c + 273.15 ∧
    celsiusToFahrenheit 0 = 32 ∧
    celsiusToFahrenheit 100 = 212 ∧
    celsiusToKelvin 0 = 273 := by
  refine ⟨rfl, rfl, ?_, by norm_num [celsiusToFahrenheit],
    by norm_num [celsiusToFahrenheit], by norm_num [celsiusToKelvin]⟩
  unfold celsiusToKelvin
  intro h
  have h' : (273 : ℚ) = 273.15 := by exact add_left_cancel h
  norm_num at h'

/-- C2: the postal-code validator returns `true` exactly on strings of
exactly 8 characters all of which are ASCII digits (code points 48–57);
it returns `false` for every string of a different length or containing a
non-digit character. -/
theorem validateCEP_spec (s : String) :
    validateCEP s = true ↔
      s.length = 8 ∧ ∀ c ∈ s.data, 48 ≤ c.toNat ∧ c.toNat ≤ 57 := by
  unfold validateCEP
  simp only [Bool.and_eq_true, decide_eq_true_eq, List.all_eq_true]
  constructor
  · rintro ⟨h1, h2⟩
    exact ⟨h1, fun c hc => (isDigit_iff_toNat c).mp (h2 c hc)⟩
  · rintro ⟨h1, h2⟩
    exact ⟨h1, fun c hc => (isDigit_iff_toNat c).mpr (h2 c hc)⟩

/-- Witness for C1: the spec's worked scenario, 25 °C is 77 °F and
298 K. -/
theorem celsius_conversions_spec_witness :
    celsiusToFahrenheit 25 = 77 ∧ celsiusToKelvin 25 = 298 :=
  ⟨((celsius_conversions_spec 25).1).trans (by norm_num),
   ((celsius_conversions_spec 25).2.1).trans (by norm_num)⟩

/-- Witness for C2: the validator accepts the spec's example postal code
and rejects a short one. -/
theorem validateCEP_spec_witness :
    validateCEP "01310100" = true ∧ ¬ validateCEP "123" = true :=
  ⟨(validateCEP_spec "01310100").mpr (by decide),
   fun h => by
    have h2 := (validateCEP_spec "123").mp h
    exact absurd h2.1 (by decide)⟩

/-- C3: in the Orchestration handler (method allowed, body parsed, postal
code valid), a not-found outcome of the Address-Lookup call yields status
404 with message "can not find zipcode", a transport or parse error on the
same call yields status 500 with message "internal error", and the two
status codes differ. -/
theorem orch_notFound_vs_lookupError (inp : OrchInput) (req : CEPRequest)
    (hm : inp.method = "POST")
    (hb : decodeBody inp.reqBody = Except.ok req)
    (hv : validateCEP req.cep = true) :
    (lookupCEP inp.lookupOutcome = Except.ok none →
        handleWeather inp = ⟨404, RespBody.errMsg "can not find zipcode"⟩) ∧
    (lookupCEP inp.lookupOutcome = Except.error () →
        handleWeather inp = ⟨500, RespBody.errMsg "internal error"⟩) ∧
    (404 : Nat) ≠ 500 := by
  refine ⟨fun hl => ?_, fun hl => ?_, by decide⟩ <;>
    simp [handleWeather, handleWeatherT, hm, hb, hv, hl]

/-- Witness for C3 at a concrete request whose lookup response body carries
`erro = "true"`. -/
theorem orch_notFound_vs_lookupError_witness :
    handleWeather
        { method := "POST",
          reqBody := some (JVal.jobj [("cep", JVal.jstr "01310100")]),
          lookupOutcome :=
            HTTPOutcome.response 200
              (some (JVal.jobj [("erro", JVal.jstr "true")])),
          apiKey := "k",
          weatherOutcome := HTTPOutcome.transportErr } =
      ⟨404, RespBody.errMsg "can not find zipcode"⟩ :=
  (orch_notFound_vs_lookupError
      { method := "POST",
        reqBody := some (JVal.jobj [("cep", JVal.jstr "01310100")]),
        lookupOutcome :=
          HTTPOutcome.response 200
            (some (JVal.jobj [("erro", JVal.jstr "true")])),
        apiKey := "k",
        weatherOutcome := HTTPOutcome.transportErr }
      ⟨"01310100"⟩ rfl rfl rfl).1 rfl

/-- C4: when the Edge handler receives a response from the Orchestration
Service (method allowed, body parsed, postal code valid, outbound request
constructed), it answers the original caller with exactly that status code
and exactly those body bytes. -/
theorem edge_relays_orch_response (inp : EdgeInput) (req : CEPRequest)
    (status : Nat) (bytes : String)
    (hm : inp.method = "POST")
    (hb : decodeBody inp.reqBody = Except.ok req)
    (hv : validateCEP req.cep = true)
    (hok : inp.buildOk = true)
    (hf : inp.forwardOutcome = HTTPOutcome.response status bytes) :
    handleCEP inp = ⟨status, RespBody.rawBytes bytes⟩ := by
  simp [handleCEP, handleCEPT, hm, hb, hv, hok, hf]

/-- Witness for C4: a 404 error body from Orchestration is relayed
verbatim, status and bytes included. -/
theorem edge_relays_orch_response_witness :
    handleCEP
        { method := "POST",
          reqBody := some (JVal.jobj [("cep", JVal.jstr "01310100")]),
          buildOk := true,
          forwardOutcome :=
            HTTPOutcome.response 404 "\x7b\"message\":\"can not find zipcode\"\x7d\n" } =
      ⟨404, RespBody.rawBytes "\x7b\"message\":\"can not find zipcode\"\x7d\n"⟩ :=
  edge_relays_orch_response _ ⟨"01310100"⟩ 404 _ rfl rfl rfl rfl rfl

/-- C5: every failure of the Weather collaborator call makes the
Orchestration handler answer 500 "failed to get weather"; and `getWeather`
fails on each listed cause: missing credential (`WEATHER_API_KEY` reads as
the empty string), transport error, non-success provider status, and
response-parse error. -/
theorem weather_failure_maps_500 (inp : OrchInput) (req : CEPRequest)
    (viaCEP : ViaCEPResponse) (key : String) (status : Nat)
    (b : Option JVal) (v : JVal) (o : HTTPOutcome (Option JVal))
    (hm : inp.method = "POST")
    (hb : decodeBody inp.reqBody = Except.ok req)
    (hv : validateCEP req.cep = true)
    (hl : lookupCEP inp.lookupOutcome = Except.ok (some viaCEP))
    (hst : status ≠ 200)
    (hparse : unmarshalWeather v = Except.error ()) :
    (getWeather inp.apiKey inp.weatherOutcome = Except.error () →
        handleWeather inp = ⟨500, RespBody.errMsg "failed to get weather"⟩) ∧
    getWeather "" o = Except.error () ∧
    getWeather key HTTPOutcome.transportErr = Except.error () ∧
    getWeather key (HTTPOutcome.response status b) = Except.error () ∧
    getWeather key (HTTPOutcome.response 200 (some v)) = Except.error () := by
  refine ⟨fun hw => ?_, ?_, ?_, ?_, ?_⟩
  · simp [handleWeather, handleWeatherT, hm, hb, hv, hl, hw]
  · simp [getWeather]
  · unfold getWeather; split <;> rfl
  · unfold getWeather
    split
    · rfl
    · simp [hst]
  · unfold getWeather
    split
    · rfl
    · simp [hparse]

/-- Witness for C5: a valid request whose lookup succeeds but whose
weather credential is absent gets 500 "failed to get weather". -/
theorem weather_failure_maps_500_witness :
    handleWeather
        { method := "POST",
          reqBody := some (JVal.jobj [("cep", JVal.jstr "01310100")]),
          lookupOutcome :=
            HTTPOutcome.response 200
              (some (JVal.jobj [("localidade", JVal.jstr "Sao Paulo")])),
          apiKey := "",
          weatherOutcome := HTTPOutcome.transportErr } =
      ⟨500, RespBody.errMsg "failed to get weather"⟩ :=
  (weather_failure_maps_500
      { method := "POST",
        reqBody := some (JVal.jobj [("cep", JVal.jstr "01310100")]),
        lookupOutcome :=
          HTTPOutcome.response 200
            (some (JVal.jobj [("localidade", JVal.jstr "Sao Paulo")])),
        apiKey := "",
        weatherOutcome := HTTPOutcome.transportErr }
      ⟨"01310100"⟩
      { localidade := "Sao Paulo" } "k" 404 none (JVal.jstr "x")
      HTTPOutcome.transportErr rfl rfl rfl rfl (by decide) rfl).1 rfl

/-- C7: a transport-level failure of the Edge handler's outbound call to
the Orchestration Service (method allowed, body parsed, postal code valid,
outbound request constructed) yields status 503 with message
"service unavailable". -/
theorem edge_transport_503 (inp : EdgeInput) (req : CEPRequest)
    (hm : inp.method = "POST")
    (hb : decodeBody inp.reqBody = Except.ok req)
    (hv : validateCEP req.cep = true)
    (hok : inp.buildOk = true)
    (hf : inp.forwardOutcome = HTTPOutcome.transportErr) :
    handleCEP inp = ⟨503, RespBody.errMsg "service unavailable"⟩ := by
  simp [handleCEP, handleCEPT, hm, hb, hv, hok, hf]

/-- Witness for C7 at a concrete unreachable-Orchestration input. -/
theorem edge_transport_503_witness :
    handleCEP
        { method := "POST",
          reqBody := some (JVal.jobj [("cep", JVal.jstr "01310100")]),
          buildOk := true,
          forwardOutcome := HTTPOutcome.transportErr } =
      ⟨503, RespBody.errMsg "service unavailable"⟩ :=
  edge_transport_503 _ ⟨"01310100"⟩ rfl rfl rfl rfl rfl

/-- The Edge handler's 422 response characterised: it appears exactly on a
body-parse failure or a validator failure. -/
theorem handleCEP_422_iff (inp : EdgeInput) (hm : inp.method = "POST") :
    handleCEP inp = ⟨422, RespBody.errMsg "invalid zipcode"⟩ ↔
      decodeBody inp.reqBody = Except.error () ∨
        ∃ req, decodeBody inp.reqBody = Except.ok req ∧
          validateCEP req.cep = false := by
  unfold handleCEP handleCEPT
  rcases hd : decodeBody inp.reqBody with e | req
  · cases e
    exact iff_of_true (by simp [hm, hd]) (Or.inl rfl)
  · rcases hvv : validateCEP req.cep with _ | _
    · exact iff_of_true (by simp [hm, hd, hvv]) (Or.inr ⟨req, rfl, hvv⟩)
    · refine iff_of_false ?_ ?_
      · cases hbo : inp.buildOk
        · simp [hm, hd, hvv, hbo]
        · cases hfo : inp.forwardOutcome <;> simp [hm, hd, hvv, hbo, hfo]
      · rintro (h | ⟨req', h', hv'⟩)
        · exact Except.noConfusion h
        · injection h' with h2
          subst h2
          rw [hvv] at hv'
          exact Bool.noConfusion hv'

/-- The Orchestration handler's 422 response characterised: it appears
exactly on a body-parse failure or a validator failure. -/
theorem handleWeather_422_iff (inp : OrchInput) (hm : inp.method = "POST") :
    handleWeather inp = ⟨422, RespBody.errMsg "invalid zipcode"⟩ ↔
      decodeBody inp.reqBody = Except.error () ∨
        ∃ req, decodeBody inp.reqBody = Except.ok req ∧
          validateCEP req.cep = false := by
  unfold handleWeather handleWeatherT
  rcases hd : decodeBody inp.reqBody with e | req
  · cases e
    exact iff_of_true (by simp [hm, hd]) (Or.inl rfl)
  · rcases hvv : validateCEP req.cep with _ | _
    · exact iff_of_true (by simp [hm, hd, hvv]) (Or.inr ⟨req, rfl, hvv⟩)
    · refine iff_of_false ?_ ?_
      · rcases hl : lookupCEP inp.lookupOutcome with e | viaCEP
        · cases e; simp [hm, hd, hvv, hl]
        · rcases viaCEP with _ | viaCEP
          · simp [hm, hd, hvv, hl]
          · rcases hw : getWeather inp.apiKey inp.weatherOutcome with e | t
            · cases e; simp [hm, hd, hvv, hl, hw]
            · simp [hm, hd, hvv, hl, hw]
      · rintro (h | ⟨req', h', hv'⟩)
        · exact Except.noConfusion h
        · injection h' with h2
          subst h2
          rw [hvv] at hv'
          exact Bool.noConfusion hv'

/-- C6: both handlers (given the allowed method) answer 422 with message
"invalid zipcode" exactly when the request body fails to parse as the
`CEPRequest` shape or the parsed postal code fails the validator; the two
failure causes produce the identical response. -/
theorem invalid_zipcode_422_iff (ei : EdgeInput) (oi : OrchInput)
    (hme : ei.method = "POST") (hmo : oi.method = "POST") :
    (handleCEP ei = ⟨422, RespBody.errMsg "invalid zipcode"⟩ ↔
      decodeBody ei.reqBody = Except.error () ∨
        ∃ req, decodeBody ei.reqBody = Except.ok req ∧
          validateCEP req.cep = false) ∧
    (handleWeather oi = ⟨422, RespBody.errMsg "invalid zipcode"⟩ ↔
      decodeBody oi.reqBody = Except.error () ∨
        ∃ req, decodeBody oi.reqBody = Except.ok req ∧
          validateCEP req.cep = false) :=
  ⟨handleCEP_422_iff ei hme, handleWeather_422_iff oi hmo⟩

/-- Witness for C6: a syntactically bad body at the Edge Service and a
well-formed body with a short postal code at the Orchestration Service
both get the 422 "invalid zipcode" response. -/
theorem invalid_zipcode_422_iff_witness :
    handleCEP
        { method := "POST", reqBody := none, buildOk := true,
          forwardOutcome := HTTPOutcome.transportErr } =
      ⟨422, RespBody.errMsg "invalid zipcode"⟩ ∧
    handleWeather
        { method := "POST",
          reqBody := some (JVal.jobj [("cep", JVal.jstr "123")]),
          lookupOutcome := HTTPOutcome.transportErr, apiKey := "k",
          weatherOutcome := HTTPOutcome.transportErr } =
      ⟨422, RespBody.errMsg "invalid zipcode"⟩ :=
  ⟨(invalid_zipcode_422_iff
      { method := "POST", reqBody := none, buildOk := true,
        forwardOutcome := HTTPOutcome.transportErr }
      { method := "POST",
        reqBody := some (JVal.jobj [("cep", JVal.jstr "123")]),
        lookupOutcome := HTTPOutcome.transportErr, apiKey := "k",
        weatherOutcome := HTTPOutcome.transportErr }
      rfl rfl).1.mpr (Or.inl rfl),
   (invalid_zipcode_422_iff
      { method := "POST", reqBody := none, buildOk := true,
        forwardOutcome := HTTPOutcome.transportErr }
      { method := "POST",
        reqBody := some (JVal.jobj [("cep", JVal.jstr "123")]),
        lookupOutcome := HTTPOutcome.transportErr, apiKey := "k",
        weatherOutcome := HTTPOutcome.transportErr }
      rfl rfl).2.mpr (Or.inr ⟨⟨"123"⟩, rfl, rfl⟩)⟩

/-- C8: the Orchestration handler calls the Weather collaborator only
after the Address-Lookup call completed successfully with a found city,
and the city argument of that call is exactly the locality Address-Lookup
returned; when the lookup errored or reported not-found, the Weather
collaborator is never called. -/
theorem weather_call_trace (inp : OrchInput) (city : String) :
    ((handleWeatherT inp).snd = some city →
        ∃ req viaCEP, decodeBody inp.reqBody = Except.ok req ∧
          validateCEP req.cep = true ∧
          lookupCEP inp.lookupOutcome = Except.ok (some viaCEP) ∧
          city = viaCEP.localidade) ∧
    ((lookupCEP inp.lookupOutcome = Except.error () ∨
        lookupCEP inp.lookupOutcome = Except.ok none) →
        (handleWeatherT inp).snd = none) := by
  constructor
  · intro h
    unfold handleWeatherT at h
    split at h
    · exact absurd h (by simp)
    · split at h
      · exact absurd h (by simp)
      · rename_i req hreq
        split at h
        · exact absurd h (by simp)
        · rename_i hval
          split at h
          · exact absurd h (by simp)
          · exact absurd h (by simp)
          · rename_i viaCEP hlook
            have hv : validateCEP req.cep = true := by
              simpa using hval
            split at h <;>
              exact ⟨req, viaCEP, hreq, hv, hlook,
                (Option.some.inj (by simpa using h)).symm⟩
  · intro hl
    unfold handleWeatherT
    split
    · rfl
    · split
      · rfl
      · split
        · rfl
        · split
          · rfl
          · rfl
          · rename_i viaCEP hlook
            rcases hl with hl | hl <;> rw [hlook] at hl <;>
              exact absurd hl (by simp)

/-- Witness for C8: a valid request whose lookup response has an empty
locality never reaches the Weather collaborator. -/
theorem weather_call_trace_witness :
    (handleWeatherT
        { method := "POST",
          reqBody := some (JVal.jobj [("cep", JVal.jstr "00000000")]),
          lookupOutcome := HTTPOutcome.response 200 (some JVal.jnull),
          apiKey := "k",
          weatherOutcome := HTTPOutcome.transportErr }).snd = none :=
  (weather_call_trace
      { method := "POST",
        reqBody := some (JVal.jobj [("cep", JVal.jstr "00000000")]),
        lookupOutcome := HTTPOutcome.response 200 (some JVal.jnull),
        apiKey := "k",
        weatherOutcome := HTTPOutcome.transportErr } "x").2 (Or.inr rfl)

/-- C9: when the Edge handler accepts a request (parse and validation
succeed) and constructs its outbound request, the body it attaches is the
JSON re-serialization of the parsed `CEPRequest` — exactly the object
`\x7b"cep":"<the validated cep string>"\x7d` — so only the `cep` value of
the client's original body is forwarded. -/
theorem edge_forwards_reserialized_cep (inp : EdgeInput) (req : CEPRequest)
    (hm : inp.method = "POST")
    (hb : decodeBody inp.reqBody = Except.ok req)
    (hv : validateCEP req.cep = true)
    (hok : inp.buildOk = true) :
    (handleCEPT inp).snd = some (marshalCEPRequest req) ∧
    marshalCEPRequest req = "\x7b\"cep\":\"" ++ req.cep ++ "\"\x7d" := by
  constructor
  · unfold handleCEPT
    rcases hfo : inp.forwardOutcome with _ | ⟨status, bytes⟩ <;>
      simp [hm, hb, hv, hok, hfo]
  · unfold marshalCEPRequest
    rw [quoteJSON_digits req.cep (validateCEP_digits req.cep hv)]
    apply String.ext
    simp [String.data_append]

/-- Witness for C9: a client body carrying an extra member is forwarded
as the bare `\x7b"cep":"01310100"\x7d` object. -/
theorem edge_forwards_reserialized_cep_witness :
    (handleCEPT
        { method := "POST",
          reqBody :=
            some (JVal.jobj
              [("cep", JVal.jstr "01310100"), ("extra", JVal.jbool true)]),
          buildOk := true,
          forwardOutcome := HTTPOutcome.transportErr }).snd =
      some "\x7b\"cep\":\"01310100\"\x7d" :=
  ((edge_forwards_reserialized_cep
      { method := "POST",
        reqBody :=
          some (JVal.jobj
            [("cep", JVal.jstr "01310100"), ("extra", JVal.jbool true)]),
        buildOk := true,
        forwardOutcome := HTTPOutcome.transportErr }
      ⟨"01310100"⟩ rfl rfl rfl rfl).1.trans
    (congrArg some ((edge_forwards_reserialized_cep
      { method := "POST",
        reqBody :=
          some (JVal.jobj
            [("cep", JVal.jstr "01310100"), ("extra", JVal.jbool true)]),
        buildOk := true,
        forwardOutcome := HTTPOutcome.transportErr }
      ⟨"01310100"⟩ rfl rfl rfl rfl).2)))

/-- Once a field has failed to decode, the rest of the object cannot
recover the `ViaCEPResponse` unmarshalling. -/
theorem foldl_viaCEPStep_error (l : List (String × JVal)) (e : Unit) :
    l.foldl viaCEPStep (Except.error e) = Except.error e := by
  induction l with
  | nil => rfl
  | cons kv rest ih => rw [List.foldl_cons]; exact ih

/-- An object member `"erro"` holding a JSON boolean makes the whole
`ViaCEPResponse` unmarshalling fail, whatever the other members hold. -/
theorem foldl_viaCEPStep_erro_bool (b : Bool) (fields : List (String × JVal)) :
    ∀ acc : Except Unit ViaCEPResponse,
      ("erro", JVal.jbool b) ∈ fields →
      fields.foldl viaCEPStep acc = Except.error () := by
  induction fields with
  | nil => intro acc h; cases h
  | cons kv rest ih =>
      intro acc h
      rcases List.mem_cons.mp h with h1 | h2
      · have hstep : viaCEPStep acc ("erro", JVal.jbool b) =
            Except.error () := by
          cases acc with
          | error e => cases e; rfl
          | ok r => rfl
        rw [← h1, List.foldl_cons, hstep, foldl_viaCEPStep_error]
      · rw [List.foldl_cons]
        exact ih _ h2

/-- The not-found classification of `lookupCEP` on a received response,
characterised. -/
theorem lookupCEP_ok_none_iff (st : Nat) (body : JVal) :
    lookupCEP (HTTPOutcome.response st (some body)) = Except.ok none ↔
      ∃ r, unmarshalViaCEP body = Except.ok r ∧
        (r.erro = "true" ∨ r.localidade = "") := by
  rcases hu : unmarshalViaCEP body with e | r
  · cases e
    refine iff_of_false (by simp [lookupCEP, hu]) ?_
    rintro ⟨r, hr, _⟩
    exact Except.noConfusion hr
  · by_cases hc : r.erro = "true" ∨ r.localidade = ""
    · exact iff_of_true (by simp [lookupCEP, hu, hc]) ⟨r, rfl, hc⟩
    · refine iff_of_false (by simp [lookupCEP, hu, hc]) ?_
      rintro ⟨r', hr', hc'⟩
      injection hr' with h2
      subst h2
      exact hc hc'

/-- C10: `lookupCEP` classifies a received response as not-found exactly
when its body unmarshals into the `ViaCEPResponse` shape with
`erro = "true"` or an empty `localidade`; since `Erro` is declared as a
string, a body whose `erro` member is a JSON boolean fails to unmarshal,
so such a response is a parse error and (in the handler, on a valid
request) yields 500 "internal error" rather than 404. -/
theorem viaCEP_notFound_classification (st : Nat) (body : JVal)
    (fields : List (String × JVal)) (b : Bool) (inp : OrchInput)
    (req : CEPRequest)
    (hmem : ("erro", JVal.jbool b) ∈ fields)
    (hm : inp.method = "POST")
    (hb : decodeBody inp.reqBody = Except.ok req)
    (hv : validateCEP req.cep = true)
    (hlk : inp.lookupOutcome =
        HTTPOutcome.response st (some (JVal.jobj fields))) :
    (lookupCEP (HTTPOutcome.response st (some body)) = Except.ok none ↔
      ∃ r, unmarshalViaCEP body = Except.ok r ∧
        (r.erro = "true" ∨ r.localidade = "")) ∧
    unmarshalViaCEP (JVal.jobj fields) = Except.error () ∧
    handleWeather inp = ⟨500, RespBody.errMsg "internal error"⟩ := by
  have hunm : unmarshalViaCEP (JVal.jobj fields) = Except.error () :=
    foldl_viaCEPStep_erro_bool b fields _ hmem
  have hlerr : lookupCEP inp.lookupOutcome = Except.error () := by
    rw [hlk]; simp [lookupCEP, hunm]
  exact ⟨lookupCEP_ok_none_iff st body, hunm,
    by simp [handleWeather, handleWeatherT, hm, hb, hv, hlerr]⟩

/-- Witness for C10: a `\x7b"erro": true\x7d` lookup response (boolean
`erro`) on an otherwise valid request produces 500 "internal error". -/
theorem viaCEP_notFound_classification_witness :
    handleWeather
        { method := "POST",
          reqBody := some (JVal.jobj [("cep", JVal.jstr "99999999")]),
          lookupOutcome :=
            HTTPOutcome.response 200
              (some (JVal.jobj [("erro", JVal.jbool true)])),
          apiKey := "k",
          weatherOutcome := HTTPOutcome.transportErr } =
      ⟨500, RespBody.errMsg "internal error"⟩ :=
  (viaCEP_notFound_classification 200
      (JVal.jobj [("erro", JVal.jbool true)])
      [("erro", JVal.jbool true)] true
      { method := "POST",
        reqBody := some (JVal.jobj [("cep", JVal.jstr "99999999")]),
        lookupOutcome :=
          HTTPOutcome.response 200
            (some (JVal.jobj [("erro", JVal.jbool true)])),
        apiKey := "k",
        weatherOutcome := HTTPOutcome.transportErr }
      ⟨"99999999"⟩ (List.mem_singleton.mpr rfl) rfl rfl rfl rfl).2.2

end WeatherCep
